import Mathlib

/-
Verification development for the bendsql Python driver binding
(databendlabs/bendsql).  The repository snapshot contains the behavioural
test suites and the Python package surface; the driver core itself (the
native `_databend_driver` module and the `databend_driver.orm` helper) is
not part of the snapshot, so every component below is modelled from the
natural-language specification (spec.md) and exercised on the concrete
inputs appearing in the behavioural tests.
-/

set_option maxRecDepth 4000

namespace Bendsql

/- ## Row streaming / pagination (spec 2, 4.2: ResultPage / RowIterator) -/

/-- Modelled from the spec: the missing RowIterator component of the driver
core (spec 2 and 4.2).  A result set is the server-side buffer of rows still
pending for a `ResultHandle`; the client pulls pages from it. -/
structure ResultSet (α : Type) where
  pending : List α
deriving DecidableEq

/-- Modelled from the spec: one continuation page fetch of the missing
RowIterator (spec 4.2).  Returns up to `p` rows and the remaining result
set; a second full traversal is impossible because the consumed rows are
gone from the buffer (not restartable). -/
def fetchPage {α : Type} (p : Nat) (r : ResultSet α) : List α × ResultSet α :=
  (r.pending.take p, ⟨r.pending.drop p⟩)

/-- Modelled from the spec: the drain-all consumption mode of the missing
RowIterator (spec 4.2), paging through a result set with page size `p`.
Each step consumes at least one row (pages are never empty while rows are
pending), matching pull-based pagination with bounded client memory. -/
def drainPages {α : Type} (p : Nat) : List α → List (List α)
  | [] => []
  | x :: xs => (x :: xs.take (p - 1)) :: drainPages p (xs.drop (p - 1))
termination_by l => l.length
decreasing_by
  simp only [List.length_drop, List.length_cons]
  omega

/-- Modelled from the spec: evaluation of `SELECT number FROM numbers(n)`,
the row source used by the streaming-completeness test. -/
def numbersRows (n : Nat) : List Nat :=
  List.range n

/-- Modelled from the spec: `query_iter` followed by a full drain of the
returned iterator, at a given pagination page size (spec 4.2, 4.3). -/
def query_iter_drain (pageSize : Nat) (n : Nat) : List Nat :=
  (drainPages pageSize (numbersRows n)).flatten

theorem drainPages_flatten_of_le {α : Type} :
    ∀ (fuel p : Nat) (l : List α), l.length ≤ fuel →
      (drainPages p l).flatten = l := by
  intro fuel
  induction fuel with
  | zero =>
    intro p l h
    have hl : l = [] := by
      cases l with
      | nil => rfl
      | cons x xs => simp at h
    subst hl
    simp [drainPages]
  | succ n ih =>
    intro p l h
    cases l with
    | nil => simp [drainPages]
    | cons x xs =>
      rw [drainPages]
      simp only [List.flatten_cons, List.cons_append]
      have hlen : (xs.drop (p - 1)).length ≤ n := by
        simp only [List.length_cons] at h
        simp only [List.length_drop]
        omega
      rw [ih p (xs.drop (p - 1)) hlen]
      simp [List.take_append_drop]

theorem drainPages_flatten {α : Type} (p : Nat) (l : List α) :
    (drainPages p l).flatten = l :=
  drainPages_flatten_of_le l.length p l le_rfl

/- ## Typed value decoding (spec 2, 3, 4.1: TypedValueDecoder) -/

/-- Modelled from the spec: the Decimal payload of the TypedValue union
(spec 3): precision, scale and an exact unscaled integer magnitude, with
value `unscaled / 10^scale`; binary floating point is never involved. -/
structure DecimalValue where
  precision : Nat
  scale : Nat
  unscaled : Int
deriving DecidableEq

/-- Exact rational value denoted by a decoded decimal. -/
def DecimalValue.toRat (d : DecimalValue) : ℚ :=
  (d.unscaled : ℚ) / (10 : ℚ) ^ d.scale

/-- Modelled from the spec: the TypedValue tagged union of the missing
driver core, restricted to the kinds the decoding claims exercise
(spec 3). -/
inductive TypedValue where
  | null : TypedValue
  | bool (b : Bool) : TypedValue
  | int (i : Int) : TypedValue
  | str (s : String) : TypedValue
  | decimal (d : DecimalValue) : TypedValue
  | array (xs : List TypedValue) : TypedValue

/-- Modelled from the spec: declared column type descriptors (spec 3),
restricted to the kinds the decoding claims exercise. -/
inductive ColumnType where
  | int64T : ColumnType
  | stringT : ColumnType
  | decimalT (precision scale : Nat) : ColumnType
  | arrayT (elem : ColumnType) : ColumnType
deriving DecidableEq

/-- Modelled from the spec: the wire representation of one result cell
(spec 4.1): a scalar text rendering, an explicit null, or a nested list
for container types. -/
inductive RawCell where
  | scalar (chars : List Char) : RawCell
  | nullCell : RawCell
  | listCell (cells : List RawCell) : RawCell

/-- Modelled from the spec: the DecodeError record (spec 4.1, 7): a reason
together with a snippet of the offending raw input. -/
structure DecodeError where
  reason : String
  rawSnippet : List Char
deriving DecidableEq

/-- Numeric value of a digit run, or `none` if some character is not a
digit. -/
def digitsVal : List Char → Option Nat
  | [] => some 0
  | c :: cs =>
    if c.isDigit then (digitsVal cs).map (fun r => (c.toNat - 48) * 10 ^ cs.length + r)
    else none

/-- Split a character list at the first dot, if any. -/
def splitDot : List Char → List Char × Option (List Char)
  | [] => ([], none)
  | c :: rest =>
    if c = '.' then ([], some rest)
    else
      let r := splitDot rest
      (c :: r.1, r.2)

/-- Modelled from the spec: exact decimal decoding of the missing
TypedValueDecoder (spec 4.1).  The wire text is parsed straight into an
unscaled integer at the declared scale: integer digits are scaled by
`10^scale`, fraction digits are scaled by the remaining power; malformed
text (non-digits, missing digits, more fraction digits than the declared
scale) yields `none`.  No floating-point value is ever produced. -/
def parseDecimal (precision scale : Nat) (cs : List Char) : Option DecimalValue :=
  let signBody : Int × List Char :=
    match cs with
    | '-' :: rest => (-1, rest)
    | _ => (1, cs)
  let body := signBody.2
  let parts := splitDot body
  match parts.2 with
  | none =>
    if parts.1.isEmpty then none
    else (digitsVal parts.1).map fun i =>
      ⟨precision, scale, signBody.1 * (i * 10 ^ scale : Nat)⟩
  | some fp =>
    if parts.1.isEmpty || fp.isEmpty || decide (scale < fp.length) then none
    else
      match digitsVal parts.1, digitsVal fp with
      | some i, some f =>
        some ⟨precision, scale,
          signBody.1 * (i * 10 ^ scale + f * 10 ^ (scale - fp.length) : Nat)⟩
      | _, _ => none

/-- Parse an optionally signed integer rendering. -/
def parseInt64 (cs : List Char) : Option Int :=
  match cs with
  | '-' :: rest =>
    if rest.isEmpty then none else (digitsVal rest).map fun i => -(i : Int)
  | _ =>
    if cs.isEmpty then none else (digitsVal cs).map fun i => (i : Int)

/-- Raw characters of a wire cell, for DecodeError snippets. -/
def rawSnip : RawCell → List Char
  | .scalar s => s
  | _ => []

/-- Nesting depth of a declared column type; one fuel unit is spent per
container level during decoding. -/
def typeDepth : ColumnType → Nat
  | .arrayT t => typeDepth t + 1
  | _ => 1

/-- Modelled from the spec: the missing TypedValueDecoder (spec 2, 4.1),
with the recursion over container levels driven by an explicit depth
budget (`typeDepth` of the declared type always suffices).  Container
elements decode in wire encoding order; malformed input is never silently
coerced. -/
def decodeF : Nat → ColumnType → RawCell → Except DecodeError TypedValue
  | 0, _, c => Except.error ⟨"recursion depth exhausted", rawSnip c⟩
  | fuel + 1, t, c =>
    match t, c with
    | _, .nullCell => Except.ok TypedValue.null
    | .int64T, .scalar s =>
      match parseInt64 s with
      | some i => Except.ok (TypedValue.int i)
      | none => Except.error ⟨"malformed Int64", s⟩
    | .stringT, .scalar s => Except.ok (TypedValue.str (String.mk s))
    | .decimalT p sc, .scalar s =>
      match parseDecimal p sc s with
      | some d => Except.ok (TypedValue.decimal d)
      | none => Except.error ⟨"malformed Decimal", s⟩
    | .arrayT te, .listCell cs =>
      (cs.foldr
        (fun cell acc =>
          match decodeF fuel te cell, acc with
        | Except.error e, _ => Except.error e
        | Except.ok _, Except.error e => Except.error e
        | Except.ok v, Except.ok vs => Except.ok (v :: vs))
        (Except.ok [])).map TypedValue.array
    | _, cc => Except.error ⟨"type mismatch", rawSnip cc⟩

/-- Modelled from the spec: the TypedValueDecoder contract
`decode(raw_cell, declared_type)` (spec 4.1). -/
def decode (t : ColumnType) (c : RawCell) : Except DecodeError TypedValue :=
  decodeF (typeDepth t) t c

/- ## Connection state: last_query_id (spec 3, 4.2, 4.3) -/

/-- Modelled from the spec: generation of a fresh server-assigned query id
for submission number `n`; ids are opaque non-empty strings, pairwise
distinct across submissions (spec 8, query-id monotonic distinctness). -/
def freshQueryId (n : Nat) : String :=
  String.mk ('q' :: List.replicate n 'q')

/-- Modelled from the spec: the Connection-owned session state relevant to
`last_query_id` (spec 3, Session): the last executed query id and the
submission counter that yields the next server-assigned id. -/
structure ConnState where
  lastQueryId : Option String
  nextSubmission : Nat
deriving DecidableEq

/-- Modelled from the spec: a freshly created connection, before any query
has run (spec 4.3: `None` before any query has run). -/
def freshConn : ConnState :=
  ⟨none, 0⟩

/-- Modelled from the spec: the state update shared by exec, query_row and
query_iter (spec 4.3): each submission obtains a fresh server-assigned
query id and records it as `last_query_id`. -/
def submitQuery (c : ConnState) : ConnState :=
  ⟨some (freshQueryId c.nextSubmission), c.nextSubmission + 1⟩

/-- State after `n` consecutive exec/query_row/query_iter calls. -/
def submitN (c : ConnState) : Nat → ConnState
  | 0 => c
  | n + 1 => submitQuery (submitN c n)

/-- Modelled from the spec: a continuation page fetch issued by an
already-returned iterator (spec 4.2): it pulls the next page from the
result set and leaves the owning connection's state untouched — paging
calls do not update `last_query_id`. -/
def fetchContinuationPage {α : Type} (p : Nat) (c : ConnState) (r : ResultSet α) :
    ConnState × (List α × ResultSet α) :=
  (c, fetchPage p r)

theorem freshQueryId_injective : Function.Injective freshQueryId := by
  intro a b h
  have hlen : (freshQueryId a).length = (freshQueryId b).length := by rw [h]
  simp only [freshQueryId, String.length, List.length_cons,
    List.length_replicate] at hlen
  omega

theorem submitN_nextSubmission (c : ConnState) :
    ∀ n, (submitN c n).nextSubmission = c.nextSubmission + n := by
  intro n
  induction n with
  | zero => rfl
  | succ k ih => simp [submitN, submitQuery, ih]; omega

theorem submitN_lastQueryId (c : ConnState) (n : Nat) :
    (submitN c (n + 1)).lastQueryId
      = some (freshQueryId (c.nextSubmission + n)) := by
  show (submitQuery (submitN c n)).lastQueryId = _
  simp [submitQuery, submitN_nextSubmission]

/- ## kill_query (spec 4.3, 7, 8) -/

/-- Hexadecimal digit test, for query-id well-formedness. -/
def isHexDigit (c : Char) : Bool :=
  c.isDigit || (('a' ≤ c && c ≤ 'f') || ('A' ≤ c && c ≤ 'F'))

/-- Split a character list on a separator character. -/
def splitOnChar (sep : Char) : List Char → List (List Char)
  | [] => [[]]
  | c :: rest =>
    let r := splitOnChar sep rest
    if c = sep then [] :: r
    else
      match r with
      | [] => [[c]]
      | g :: gs => (c :: g) :: gs

/-- Modelled from the spec: syntactic validity of a query id, the UUID
shape used by the kill-query tests (five dash-separated hexadecimal
groups of sizes 8-4-4-4-12). -/
def isValidQueryId (s : String) : Bool :=
  let parts := splitOnChar '-' s.data
  decide (parts.map List.length = [8, 4, 4, 4, 12]) && parts.all (·.all isHexDigit)

/-- Modelled from the spec: the missing `kill_query` operation (spec 4.3):
given the set of live query ids on the server, killing a live id succeeds
and killing any other id fails with a descriptive error — never a silent
no-op. -/
def kill_query (live : List String) (queryId : String) : Except String Unit :=
  if queryId ∈ live then Except.ok ()
  else Except.error ("no query found for id " ++ queryId)

theorem string_length_append (s t : String) :
    (s ++ t).length = s.length + t.length := by
  cases s with
  | mk ds =>
    cases t with
    | mk dt =>
      show (String.mk (ds ++ dt)).length = (String.mk ds).length + (String.mk dt).length
      show (ds ++ dt).length = ds.length + dt.length
      exact List.length_append ds dt

/- ## Parameter binding (spec 4.3) -/

/-- Modelled from the spec: the parameter values binding must support
(spec 4.3): integers, booleans, floating point, strings and explicit
null.  Floating-point inputs are carried as exact rationals in the model;
binding only passes them through unchanged. -/
inductive Param where
  | null : Param
  | int (i : Int) : Param
  | bool (b : Bool) : Param
  | float (q : ℚ) : Param
  | str (s : String) : Param
deriving DecidableEq

/-- Modelled from the spec: the two placeholder styles of a SQL text
(spec 4.3): positional `?` and named `:name`. -/
inductive Placeholder where
  | positional : Placeholder
  | named (name : String) : Placeholder
deriving DecidableEq

/-- Whether a placeholder is a named one. -/
def isNamedPh : Placeholder → Bool
  | .named _ => true
  | .positional => false

/-- Whether a placeholder is a positional one. -/
def isPosPh : Placeholder → Bool
  | .positional => true
  | .named _ => false

/-- Identifier characters allowed in a `:name` placeholder. -/
def isIdentChar (c : Char) : Bool :=
  c.isAlpha || c.isDigit || c = '_'

/-- One right-to-left step of the placeholder scanner: the first component
carries the identifier run immediately to the right of the current
character, the second the placeholders found so far. -/
def scanStep (c : Char) (st : List Char × List Placeholder) :
    List Char × List Placeholder :=
  if c = '?' then ([], Placeholder.positional :: st.2)
  else if c = ':' then
    if st.1.isEmpty then ([], st.2)
    else ([], Placeholder.named (String.mk st.1) :: st.2)
  else if isIdentChar c then (c :: st.1, st.2)
  else ([], st.2)

/-- Modelled from the spec: extraction of the placeholders of a SQL text
in order (spec 4.3): every `?` is a positional placeholder and every
`:name` with a non-empty identifier is a named placeholder. -/
def scanPlaceholders (cs : List Char) : List Placeholder :=
  (cs.foldr scanStep ([], [])).2

/-- Modelled from the spec: the parameter set supplied with one call
(spec 4.3): either a positional ordered sequence or a named mapping. -/
inductive ParamSet where
  | positionalPs (vs : List Param) : ParamSet
  | namedPs (m : List (String × Param)) : ParamSet
deriving DecidableEq

/-- Look up a named parameter in the supplied mapping. -/
def lookupNamed (m : List (String × Param)) (k : String) : Option Param :=
  (m.find? (fun kv => kv.1 = k)).map (fun kv => kv.2)

/-- Bind named placeholders from a mapping, in placeholder order; a
positional placeholder here is a style mix and is rejected. -/
def bindNamed (m : List (String × Param)) : List Placeholder → Except String (List Param)
  | [] => Except.ok []
  | .positional :: _ =>
    Except.error "binding mismatch: positional placeholder bound with named parameters"
  | .named k :: rest =>
    match lookupNamed m k, bindNamed m rest with
    | none, _ => Except.error ("no binding supplied for name " ++ k)
    | _, Except.error e => Except.error e
    | some v, Except.ok vs => Except.ok (v :: vs)

/-- Modelled from the spec: parameter binding of the missing driver core
(spec 4.3).  A positional sequence binds `?` placeholders in order and is
rejected on any arity mismatch; a named mapping binds `:name`
placeholders; mixing the two styles in one call is rejected with a
binding-mismatch error.  On success the bound values are returned
unchanged, in placeholder order. -/
def bindParams (sql : String) (ps : ParamSet) : Except String (List Param) :=
  let phs := scanPlaceholders sql.data
  match ps with
  | .positionalPs vs =>
    if phs.any isNamedPh then
      Except.error "binding mismatch: named placeholder bound with positional parameters"
    else if phs.length = vs.length then Except.ok vs
    else Except.error "binding mismatch: placeholder count differs from supplied arity"
  | .namedPs m => bindNamed m phs

theorem replicate_positional_any_named (n : Nat) :
    (List.replicate n Placeholder.positional).any isNamedPh = false := by
  induction n with
  | zero => rfl
  | succ k ih => simp [List.replicate, List.any_cons, ih, isNamedPh]

/- ## Progress accounting and stream_load (spec 2, 3, 4.1, 4.3) -/

/-- Modelled from the spec: the quote-escaping mode of the load wire
format (spec 4.1): a quote is either doubled or backslash-escaped. -/
inductive QuoteMode where
  | doubledQ : QuoteMode
  | backslashQ : QuoteMode
deriving DecidableEq

/-- Modelled from the spec: the load-format dialect configuration
(spec 4.1, 6): the NULL sentinel is a configuration option, not a
hardcoded constant, alongside the quoting mode and separators. -/
structure LoadFormat where
  nullSentinel : String
  quoteMode : QuoteMode
  fieldSep : String
  recordSep : String
deriving DecidableEq

/-- Escape one character per the configured quoting mode (spec 4.1). -/
def escapeChar (m : QuoteMode) (c : Char) : List Char :=
  match m with
  | .doubledQ => if c = '\'' then ['\'', '\''] else [c]
  | .backslashQ => if c = '\'' || c = '\\' then ['\\', c] else [c]

/-- Escape a field value per the configured quoting mode. -/
def escapeField (m : QuoteMode) (s : String) : String :=
  String.mk ((s.data.map (escapeChar m)).flatten)

/-- Serialize one cell: `none` becomes the configured NULL sentinel,
a present string is escaped (spec 4.1). -/
def serializeCell (fmt : LoadFormat) : Option String → String
  | none => fmt.nullSentinel
  | some s => escapeField fmt.quoteMode s

/-- Join strings with a separator. -/
def joinSep (sep : String) : List String → String
  | [] => ""
  | [s] => s
  | s :: rest => s ++ sep ++ joinSep sep rest

/-- Modelled from the spec: serialization of one client-side row to the
load wire format (spec 4.3, stream_load), ending with the record
separator. -/
def serializeRow (fmt : LoadFormat) (row : List (Option String)) : String :=
  joinSep fmt.fieldSep (row.map (serializeCell fmt)) ++ fmt.recordSep

/-- Concatenation of serialized rows. -/
def concatAll : List String → String
  | [] => ""
  | s :: rest => s ++ concatAll rest

/-- Modelled from the spec: the full serialized load body for a list of
rows (spec 4.3). -/
def serializeRows (fmt : LoadFormat) (rows : List (List (Option String))) : String :=
  concatAll (rows.map (serializeRow fmt))

/-- Modelled from the spec: the Progress record (spec 3): cumulative rows
and bytes written by one load/insert operation.  The model counts one
byte per serialized character (the fixtures are ASCII). -/
structure Progress where
  write_rows : Nat
  write_bytes : Nat
deriving DecidableEq

/-- Modelled from the spec: one incremental ProgressTracker update
(spec 2): one more row, `bytes` more bytes. -/
def Progress.addRow (p : Progress) (bytes : Nat) : Progress :=
  ⟨p.write_rows + 1, p.write_bytes + bytes⟩

/-- Modelled from the spec: the missing `stream_load` operation
(spec 4.3): client-side rows are serialized to the load wire format and
streamed in one operation, the ProgressTracker accumulating per-row
counters; the accumulated final Progress is returned. -/
def stream_load (fmt : LoadFormat) (rows : List (List (Option String))) : Progress :=
  rows.foldl (fun p row => p.addRow (serializeRow fmt row).length) ⟨0, 0⟩

/-- Modelled from the spec: the Progress the server acknowledges for a
load (spec 3): the exact row count and the exact byte count of the
serialized body it received. -/
def serverAckProgress (fmt : LoadFormat) (rows : List (List (Option String))) : Progress :=
  ⟨rows.length, (serializeRows fmt rows).length⟩

theorem stream_load_foldl (fmt : LoadFormat) :
    ∀ (rows : List (List (Option String))) (p : Progress),
      rows.foldl (fun q row => q.addRow (serializeRow fmt row).length) p
        = ⟨p.write_rows + rows.length, p.write_bytes + (serializeRows fmt rows).length⟩ := by
  intro rows
  induction rows with
  | nil =>
    intro p
    cases p
    rfl
  | cons r rest ih =>
    intro p
    rw [List.foldl_cons, ih]
    simp only [Progress.addRow, serializeRows, List.map_cons, concatAll,
      string_length_append, List.length_cons, Progress.mk.injEq]
    omega

theorem stream_load_eq_serverAck (fmt : LoadFormat) (rows : List (List (Option String))) :
    stream_load fmt rows = serverAckProgress fmt rows := by
  unfold stream_load
  rw [stream_load_foldl]
  simp [serverAckProgress]

/- ## load_file: stage vs streaming strategies (spec 4.3, 6, 8) -/

/-- Modelled from the spec: the two staging strategies of `load_file`
(spec 4.3): upload to a server-side staging area then bulk-insert, or
direct streamed upload. -/
inductive LoadMethod where
  | stage : LoadMethod
  | streaming : LoadMethod
deriving DecidableEq

/-- Modelled from the spec: the "stage" strategy of the missing
`load_file` (spec 4.3): the file body is uploaded to the staging area,
then inserted from stage in one bulk operation; the server acknowledges
the whole file's rows and bytes at once. -/
def load_file_stage (fmt : LoadFormat) (table : List (List (Option String)))
    (file : List (List (Option String))) :
    List (List (Option String)) × Progress :=
  let stagedBody := serializeRows fmt file
  (table ++ file, ⟨file.length, stagedBody.length⟩)

/-- Modelled from the spec: the "streaming" strategy of the missing
`load_file` (spec 4.3): the file's rows are streamed directly, appended
one at a time, the ProgressTracker accumulating per-row counters. -/
def load_file_streaming (fmt : LoadFormat) (table : List (List (Option String)))
    (file : List (List (Option String))) :
    List (List (Option String)) × Progress :=
  file.foldl
    (fun acc row => (acc.1 ++ [row], acc.2.addRow (serializeRow fmt row).length))
    (table, ⟨0, 0⟩)

/-- Modelled from the spec: the missing `load_file` operation dispatching
on the staging strategy (spec 4.3); returns the final table contents and
the final Progress. -/
def load_file (m : LoadMethod) (fmt : LoadFormat) (table : List (List (Option String)))
    (file : List (List (Option String))) :
    List (List (Option String)) × Progress :=
  match m with
  | .stage => load_file_stage fmt table file
  | .streaming => load_file_streaming fmt table file

theorem load_file_streaming_foldl (fmt : LoadFormat) :
    ∀ (file : List (List (Option String))) (table : List (List (Option String)))
      (p : Progress),
      file.foldl
          (fun acc row => (acc.1 ++ [row], acc.2.addRow (serializeRow fmt row).length))
          (table, p)
        = (table ++ file,
           ⟨p.write_rows + file.length, p.write_bytes + (serializeRows fmt file).length⟩) := by
  intro file
  induction file with
  | nil =>
    intro table p
    cases p
    simp only [List.foldl_nil, List.append_nil]
    rfl
  | cons r rest ih =>
    intro table p
    rw [List.foldl_cons, ih]
    simp only [Progress.addRow, serializeRows, List.map_cons, concatAll,
      string_length_append, List.length_cons, Prod.mk.injEq, Progress.mk.injEq,
      List.append_assoc, List.singleton_append, true_and]
    omega

/- ## Cluster, sticky sessions and temporary tables (spec 3, 4.5, 8) -/

/-- Modelled from the spec: server-side session state resident on one
node (spec 3, Session): the session id and the set of temporary-table
names it owns. -/
structure SessionRec where
  sessionId : Nat
  tempTables : List Nat
deriving DecidableEq

/-- Modelled from the spec: one cluster node's session storage
(spec 4.5): server-side session state lives on one node only. -/
structure NodeState where
  resident : List SessionRec
deriving DecidableEq

/-- Modelled from the spec: the multi-node cluster behind the balancer
(spec 4.5). -/
structure ClusterState where
  nodes : List NodeState
deriving DecidableEq

/-- Insert a table name into a set of names (create-or-replace keeps one
copy). -/
def insertTable (ts : List Nat) (t : Nat) : List Nat :=
  if t ∈ ts then ts else ts ++ [t]

/-- Create (or replace) a temp table owned by a session on this node. -/
def NodeState.createTemp (ns : NodeState) (sid t : Nat) : NodeState :=
  if ns.resident.any (fun r => r.sessionId = sid) then
    ⟨ns.resident.map fun r =>
      if r.sessionId = sid then ⟨r.sessionId, insertTable r.tempTables t⟩ else r⟩
  else ⟨ns.resident ++ [⟨sid, [t]⟩]⟩

/-- Drop one temp table owned by a session on this node. -/
def NodeState.dropTemp (ns : NodeState) (sid t : Nat) : NodeState :=
  ⟨ns.resident.map fun r =>
    if r.sessionId = sid then ⟨r.sessionId, r.tempTables.filter (fun u => u ≠ t)⟩ else r⟩

/-- Session teardown on this node: the session record, and with it every
temp table it owns, disappears (spec 3, lifecycle). -/
def NodeState.teardown (ns : NodeState) (sid : Nat) : NodeState :=
  ⟨ns.resident.filter (fun r => r.sessionId ≠ sid)⟩

/-- Apply a node-local update at node index `i`. -/
def updateAt {α : Type} (i : Nat) (f : α → α) : List α → List α
  | [] => []
  | x :: xs =>
    match i with
    | 0 => f x :: xs
    | j + 1 => x :: updateAt j f xs

/-- Route a node-local update to the session's sticky node (spec 4.5:
every call on a connection targets the same node). -/
def ClusterState.atNode (cl : ClusterState) (i : Nat) (f : NodeState → NodeState) :
    ClusterState :=
  ⟨updateAt i f cl.nodes⟩

/-- Modelled from the spec: `CREATE OR REPLACE TEMP TABLE` issued through
a connection whose session is sticky to `node` (spec 4.5, 8). -/
def createTempTable (cl : ClusterState) (node sid t : Nat) : ClusterState :=
  cl.atNode node (fun ns => ns.createTemp sid t)

/-- Modelled from the spec: `DROP TABLE` of a temp table issued through
the sticky connection (spec 8). -/
def dropTempTable (cl : ClusterState) (node sid t : Nat) : ClusterState :=
  cl.atNode node (fun ns => ns.dropTemp sid t)

/-- Modelled from the spec: explicit `Connection.close()` (spec 3,
lifecycle): triggers session teardown on the owning node, dropping every
temp table the session owns before returning. -/
def closeConnection (cl : ClusterState) (node sid : Nat) : ClusterState :=
  cl.atNode node (fun ns => ns.teardown sid)

/-- Modelled from the spec: destruction of the last live reference to a
connection (spec 3, lifecycle): the resource-finalization path triggers
the same session teardown on the owning node. -/
def finalizeConnection (cl : ClusterState) (node sid : Nat) : ClusterState :=
  cl.atNode node (fun ns => ns.teardown sid)

/-- Modelled from the spec: the system-view count of temporary tables
scoped to one session (spec 8).  The request lands on `servingNode`, but
the view reads cluster-wide session metadata, so the answer does not
depend on which node behind the balancer serves it (spec 4.5). -/
def tempTableCount (cl : ClusterState) (servingNode : Nat) (sid : Nat) : Nat :=
  (cl.nodes.map fun ns =>
    ((ns.resident.filter (fun r => r.sessionId = sid)).map
      (fun r => r.tempTables.length)).sum).sum

/-- Three empty nodes behind the balancer, as in the cluster tests. -/
def clusterInit : ClusterState :=
  ⟨[⟨[]⟩, ⟨[]⟩, ⟨[]⟩]⟩

/-- Modelled from the spec: the temp-table test trace (spec 8): one
session (id 1, sticky to node 0) creates temp tables 0..9 and drops
table 1. -/
def tempTableTrace : ClusterState :=
  (List.range 10).foldl
    (fun cl i =>
      let cl1 := createTempTable cl 0 1 i
      if i = 1 then dropTempTable cl1 0 1 i else cl1)
    clusterInit

/- ## Result-handle release on iterator drop (spec 3, 4.2) -/

/-- Modelled from the spec: one live server-side query process, keyed by
its ResultHandle id and the session database it runs in (spec 3). -/
structure ProcessRec where
  handleId : Nat
  database : String
deriving DecidableEq

/-- Modelled from the spec: the server's table of live query processes
(spec 3, ResultHandle). -/
structure ServerProcs where
  procs : List ProcessRec
deriving DecidableEq

/-- Modelled from the spec: the system-view count of live processes for a
database, as observed from any connection (spec 8). -/
def processCount (st : ServerProcs) (db : String) : Nat :=
  (st.procs.filter (fun r => r.database = db)).length

/-- Modelled from the spec: the explicit server-side discard of a
ResultHandle (spec 4.2): the process it backs is gone afterwards; a
handle that is already gone stays gone, so the discard is idempotent. -/
def releaseHandle (st : ServerProcs) (h : Nat) : ServerProcs :=
  ⟨st.procs.filter (fun r => r.handleId ≠ h)⟩

/-- Modelled from the spec: the client-side iterator state over a
ResultHandle (spec 4.2): the handle id and how many rows are still
pending (non-zero while not exhausted). -/
structure RowIteratorHandle where
  handleId : Nat
  pendingRows : Nat
deriving DecidableEq

/-- Whether the iterator has consumed its whole result. -/
def RowIteratorHandle.exhausted (it : RowIteratorHandle) : Bool :=
  it.pendingRows = 0

/-- Modelled from the spec: dropping a RowIterator (loss of its last live
reference) issues the explicit discard call for its ResultHandle
(spec 4.2). -/
def dropIterator (st : ServerProcs) (it : RowIteratorHandle) : ServerProcs :=
  releaseHandle st it.handleId

/-- Modelled from the spec: the server state observed in the
drop-result-set test right before the cursor is dropped: one live
process (the replacing second query, handle 2) in the session's
database. -/
def demoProcs : ServerProcs :=
  ⟨[⟨2, "drop_result_set_cursor"⟩]⟩

/-- Modelled from the spec: the dropped cursor's iterator: it still has
pending rows (an unbounded result set was never exhausted). -/
def demoIterator : RowIteratorHandle :=
  ⟨2, 5⟩

/- ## ORM mapping layer (spec 1, out-of-scope interface) -/

/-- Modelled from the spec: one declared field of a `@databend_model`
dataclass as the mapping layer sees it (spec 1): declaration name, an
optional rename, the two skip annotations and the declared default
value. -/
structure FieldSpec where
  name : String
  renameTo : Option String
  skipSer : Bool
  skipDeser : Bool
  dfltVal : TypedValue

/-- Column name of a field after rename annotations are applied. -/
def effectiveName (f : FieldSpec) : String :=
  f.renameTo.getD f.name

/-- Modelled from the spec: `field_names()` of the missing mapping layer
(spec 1): the fields in declaration order, renames applied,
skip_serializing fields excluded. -/
def field_names : List FieldSpec → List String
  | [] => []
  | f :: fs => if f.skipSer then field_names fs else effectiveName f :: field_names fs

/-- Modelled from the spec: `to_values()` of the missing mapping layer
(spec 1): the instance's values (one per declared field, in declaration
order) with skip_serializing fields excluded. -/
def to_values : List FieldSpec → List TypedValue → List TypedValue
  | [], _ => []
  | _, [] => []
  | f :: fs, v :: vs => if f.skipSer then to_values fs vs else v :: to_values fs vs

/-- Modelled from the spec: `from_row(row)` of the missing mapping layer
(spec 1): fields are filled in declaration order; a skip_deserializing
field takes its declared default and consumes nothing, any other field
consumes the next row value, falling back to its declared default once
the row is exhausted. -/
def from_row : List FieldSpec → List TypedValue → List TypedValue
  | [], _ => []
  | f :: fs, row =>
    if f.skipDeser then f.dfltVal :: from_row fs row
    else
      match row with
      | [] => f.dfltVal :: from_row fs []
      | v :: rest => v :: from_row fs rest

theorem field_names_to_values_aligned :
    ∀ (fs : List FieldSpec) (vals : List TypedValue), vals.length = fs.length →
      field_names fs
          = ((fs.zip vals).filter (fun p => p.1.skipSer = false)).map
              (fun p => effectiveName p.1)
        ∧ to_values fs vals
          = ((fs.zip vals).filter (fun p => p.1.skipSer = false)).map
              (fun p => p.2) := by
  intro fs
  induction fs with
  | nil =>
    intro vals h
    simp [field_names, to_values]
  | cons f fs ih =>
    intro vals h
    cases vals with
    | nil => simp at h
    | cons v vs =>
      simp only [List.length_cons] at h
      have hlen : vs.length = fs.length := by omega
      obtain ⟨ihn, ihv⟩ := ih vs hlen
      cases hss : f.skipSer with
      | true =>
        constructor
        · simp [field_names, hss, List.zip_cons_cons, List.filter_cons, ihn]
        · simp [to_values, hss, List.zip_cons_cons, List.filter_cons, ihv]
      | false =>
        constructor
        · simp [field_names, hss, List.zip_cons_cons, List.filter_cons, ihn]
        · simp [to_values, hss, List.zip_cons_cons, List.filter_cons, ihv]

theorem from_row_length :
    ∀ (fs : List FieldSpec) (row : List TypedValue),
      (from_row fs row).length = fs.length := by
  intro fs
  induction fs with
  | nil => intro row; rfl
  | cons f fs ih =>
    intro row
    cases hsd : f.skipDeser with
    | true => simp [from_row, hsd, ih]
    | false =>
      cases row with
      | nil => simp [from_row, hsd, ih]
      | cons v rest => simp [from_row, hsd, ih]

theorem from_row_nil_defaults :
    ∀ fs : List FieldSpec, from_row fs [] = fs.map (fun f => f.dfltVal) := by
  intro fs
  induction fs with
  | nil => rfl
  | cons f fs ih =>
    cases hsd : f.skipDeser with
    | true => simp [from_row, hsd, ih]
    | false => simp [from_row, hsd, ih]

theorem from_row_skipDeser_default :
    ∀ (fs : List FieldSpec) (row : List TypedValue) (i : Nat) (h : i < fs.length),
      (fs.get ⟨i, h⟩).skipDeser = true →
        (from_row fs row).get? i = some (fs.get ⟨i, h⟩).dfltVal := by
  intro fs
  induction fs with
  | nil =>
    intro row i h
    simp at h
  | cons f fs ih =>
    intro row i h hsd
    cases i with
    | zero =>
      simp only [List.get] at hsd
      simp [from_row, hsd]
    | succ j =>
      simp only [List.get] at hsd
      have hj : j < fs.length := by
        simp only [List.length_cons] at h
        omega
      cases hf : f.skipDeser with
      | true =>
        simp only [from_row, hf, if_true]
        simpa using ih row j hj hsd
      | false =>
        cases row with
        | nil =>
          simp only [from_row, hf, if_false]
          simpa using ih [] j hj hsd
        | cons v rest =>
          simp only [from_row, hf, if_false]
          simpa using ih rest j hj hsd

/-- Number of row values consumed by the first `i` declared fields of
`from_row`: skip_deserializing fields consume nothing, every other field
consumes one row value.  A field whose consume position is at least the
row length is missing from the row. -/
def consumedBefore : List FieldSpec → Nat → Nat
  | [], _ => 0
  | _ :: _, 0 => 0
  | f :: fs, i + 1 => (if f.skipDeser then 0 else 1) + consumedBefore fs i

theorem from_row_missing_default :
    ∀ (fs : List FieldSpec) (row : List TypedValue) (i : Nat) (h : i < fs.length),
      (fs.get ⟨i, h⟩).skipDeser = false →
      row.length ≤ consumedBefore fs i →
        (from_row fs row).get? i = some (fs.get ⟨i, h⟩).dfltVal := by
  intro fs
  induction fs with
  | nil =>
    intro row i h
    simp at h
  | cons f fs ih =>
    intro row i h hsd hrow
    cases i with
    | zero =>
      have hrownil : row = [] := by
        cases row with
        | nil => rfl
        | cons v rest => simp [consumedBefore] at hrow
      subst hrownil
      simp only [List.get] at hsd
      simp [from_row, hsd]
    | succ j =>
      simp only [List.get] at hsd
      have hj : j < fs.length := by
        simp only [List.length_cons] at h
        omega
      simp only [consumedBefore] at hrow
      cases hf : f.skipDeser with
      | true =>
        simp only [hf, if_true] at hrow
        simp only [from_row, hf, if_true]
        simpa using ih row j hj hsd (by omega)
      | false =>
        simp only [hf, Bool.false_eq_true, if_false] at hrow
        cases row with
        | nil =>
          simp only [from_row, hf, Bool.false_eq_true, if_false]
          simpa using ih [] j hj hsd (by simp)
        | cons v rest =>
          simp only [from_row, hf, Bool.false_eq_true, if_false]
          simp only [List.length_cons] at hrow
          simpa using ih rest j hj hsd (by omega)

/-- Modelled from the spec: the ComplexModel dataclass of the ORM test
(mixed annotations): `id`, `name` renamed to `full_name`, `email`,
`created` skip_serializing, `updated` skip_deserializing, `secret`
skipping both with default "secret". -/
def complexFields : List FieldSpec :=
  [⟨"id", none, false, false, TypedValue.null⟩,
   ⟨"name", some "full_name", false, false, TypedValue.null⟩,
   ⟨"email", none, false, false, TypedValue.null⟩,
   ⟨"created", none, true, false, TypedValue.null⟩,
   ⟨"updated", none, false, true, TypedValue.null⟩,
   ⟨"secret", none, true, true, TypedValue.str "secret"⟩]

/-- Modelled from the spec: the DeserializeModel dataclass of the ORM
test: `id`, `username` renamed to `user_name`, `email`, `birth_date`,
then `created_at` skip_serializing with default null, `value`
skip_serializing with the non-null default "default", and
`internal_field` skipping both with default "". -/
def deserializeFields : List FieldSpec :=
  [⟨"id", none, false, false, TypedValue.null⟩,
   ⟨"username", some "user_name", false, false, TypedValue.null⟩,
   ⟨"email", none, false, false, TypedValue.null⟩,
   ⟨"birth_date", none, false, false, TypedValue.null⟩,
   ⟨"created_at", none, true, false, TypedValue.null⟩,
   ⟨"value", none, true, false, TypedValue.str "default"⟩,
   ⟨"internal_field", none, true, true, TypedValue.str ""⟩]

/-- Filtering twice with the same predicate is the same as filtering
once. -/
theorem filter_twice {α : Type} (p : α → Bool) :
    ∀ l : List α, List.filter p (List.filter p l) = List.filter p l := by
  intro l
  induction l with
  | nil => rfl
  | cons x xs ih =>
    cases hx : p x with
    | true => simp [List.filter_cons, hx, ih]
    | false => simp [List.filter_cons, hx, ih]

/- ## Claim theorems -/

/-- C1: Session isolation and teardown — after one session (id 1, sticky
to node 0 of a three-node cluster) creates 10 temporary tables and drops
1 of them, the session-scoped temp-table count is 9 from any serving
node; after that connection is closed explicitly, or finalized because
its last live reference disappeared, the same count observed from a
different connection is 0, regardless of which node behind the load
balancer serves the query. -/
theorem c1_session_isolation_teardown :
    (∀ servingNode : Nat, tempTableCount tempTableTrace servingNode 1 = 9)
    ∧ (∀ servingNode : Nat,
        tempTableCount (closeConnection tempTableTrace 0 1) servingNode 1 = 0)
    ∧ (∀ servingNode : Nat,
        tempTableCount (finalizeConnection tempTableTrace 0 1) servingNode 1 = 0) := by
  refine ⟨fun k => ?_, fun k => ?_, fun k => ?_⟩ <;>
    · simp only [tempTableCount]
      decide

/-- C2: Streaming completeness — draining the iterator returned by
`query_iter("SELECT number FROM numbers(5)")` yields exactly the rows
[0, 1, 2, 3, 4], in order, with no duplicates or omissions, independent
of the page size used by the underlying pagination. -/
theorem c2_streaming_completeness :
    ∀ pageSize : Nat, query_iter_drain pageSize 5 = [0, 1, 2, 3, 4] := by
  intro p
  unfold query_iter_drain
  rw [drainPages_flatten]
  decide

/-- C3: Exact decimal decoding — decoding a wire value declared
Decimal(precision, scale) produces an exact unscaled-integer decimal
(the decoder has no floating-point representation at all): decoding
15.7563 :: Decimal(8,4) yields the decimal with unscaled magnitude
157563 at scale 4, exactly the rational 157563/10^4; the wire value 5.0
of 2.0+3.0 yields a decimal exactly equal to 5; and decimals inside
arrays keep their declared scale (10 :: Decimal(15,2) decodes as 10.00,
unscaled 1000 at scale 2). -/
theorem c3_exact_decimal_decoding :
    decode (.decimalT 8 4) (.scalar "15.7563".data)
        = .ok (.decimal ⟨8, 4, 157563⟩)
    ∧ DecimalValue.toRat ⟨8, 4, 157563⟩ = (157563 : ℚ) / 10 ^ 4
    ∧ decode (.decimalT 2 1) (.scalar "5.0".data) = .ok (.decimal ⟨2, 1, 50⟩)
    ∧ DecimalValue.toRat ⟨2, 1, 50⟩ = 5
    ∧ decode (.arrayT (.decimalT 15 2))
        (.listCell [.scalar "10.00".data, .scalar "3.40".data])
        = .ok (.array [.decimal ⟨15, 2, 1000⟩, .decimal ⟨15, 2, 340⟩]) :=
  ⟨rfl, by norm_num [DecimalValue.toRat], rfl, by norm_num [DecimalValue.toRat], rfl⟩

/-- C4: Progress accounting is exact — stream_load returns exactly the
Progress the server acknowledges (the accumulated tracker equals the
row count and serialized byte count of the load body); in particular a
load of 3 rows whose serialized load-format representation (NULL
sentinel and quote escaping applied) totals 194 bytes returns exactly
3 rows written and exactly 194 bytes written. -/
theorem c4_progress_accounting :
    (∀ (fmt : LoadFormat) (rows : List (List (Option String))),
       stream_load fmt rows = serverAckProgress fmt rows)
    ∧ (∀ (fmt : LoadFormat) (rows : List (List (Option String))),
        rows.length = 3 → (serializeRows fmt rows).length = 194 →
          stream_load fmt rows = ⟨3, 194⟩) := by
  refine ⟨stream_load_eq_serverAck, ?_⟩
  intro fmt rows h3 h194
  rw [stream_load_eq_serverAck]
  simp [serverAckProgress, h3, h194]

/-- Modelled from the spec: a load-format configuration as used by the
stream-load fixtures: literal NULL sentinel, doubled-quote escaping,
comma field separator, newline record separator. -/
def demoLoadFormat : LoadFormat :=
  ⟨"NULL", QuoteMode.doubledQ, ",", "\n"⟩

/-- Three rows exercising quote escaping and the NULL sentinel whose
serialization under `demoLoadFormat` totals exactly 194 bytes. -/
def demoLoadRows : List (List (Option String)) :=
  [[some "it's", none],
   [some "x", some "y"],
   [some (String.mk (List.replicate 178 'a'))]]

theorem c4_progress_accounting_witness :
    (demoLoadRows.length = 3
      ∧ (serializeRows demoLoadFormat demoLoadRows).length = 194)
    ∧ stream_load demoLoadFormat demoLoadRows = ⟨3, 194⟩ :=
  ⟨⟨rfl, rfl⟩, c4_progress_accounting.2 demoLoadFormat demoLoadRows rfl rfl⟩

/-- C5: Stage/streaming load equivalence — for the same load format,
initial table contents and input file, `load_file` with the "stage"
strategy and `load_file` with the "streaming" strategy produce identical
final table contents and identical Progress accounting (same rows
written and same bytes written). -/
theorem c5_stage_streaming_equivalence :
    ∀ (fmt : LoadFormat) (table fileRows : List (List (Option String))),
      load_file LoadMethod.stage fmt table fileRows
        = load_file LoadMethod.streaming fmt table fileRows := by
  intro fmt table fileRows
  show load_file_stage fmt table fileRows = load_file_streaming fmt table fileRows
  unfold load_file_stage load_file_streaming
  rw [load_file_streaming_foldl]
  simp

/-- C6: last_query_id behavior — on a fresh connection `last_query_id()`
is absent; after any of exec, query_row and query_iter (all of which
submit through `submitQuery`) it is a non-null, non-empty string;
distinct consecutive submissions on one connection produce mutually
distinct query ids; and a continuation page fetch from an
already-returned iterator leaves it unchanged. -/
theorem c6_last_query_id :
    freshConn.lastQueryId = none
    ∧ (∀ c : ConnState, ∃ s : String,
        (submitQuery c).lastQueryId = some s ∧ 0 < s.length)
    ∧ (∀ (c : ConnState) (m n : Nat), m ≠ n →
        (submitN c (m + 1)).lastQueryId ≠ (submitN c (n + 1)).lastQueryId)
    ∧ (∀ (p : Nat) (c : ConnState) (r : ResultSet Nat),
        (fetchContinuationPage p c r).1.lastQueryId = c.lastQueryId) := by
  refine ⟨rfl, ?_, ?_, ?_⟩
  · intro c
    refine ⟨freshQueryId c.nextSubmission, rfl, ?_⟩
    show 0 < ('q' :: List.replicate c.nextSubmission 'q').length
    simp
  · intro c m n hmn heq
    rw [submitN_lastQueryId, submitN_lastQueryId] at heq
    have := freshQueryId_injective (Option.some.inj heq)
    omega
  · intro p c r
    rfl

theorem c6_last_query_id_witness :
    (0 ≠ 1)
    ∧ (submitN freshConn 1).lastQueryId ≠ (submitN freshConn 2).lastQueryId :=
  ⟨by decide, c6_last_query_id.2.2.1 freshConn 0 1 (by decide)⟩

/-- C7: Cursor/result-handle release on drop — dropping a
not-yet-exhausted RowIterator releases its server-side ResultHandle (no
process with that handle survives); the release is idempotent (releasing
an already-released handle changes nothing); and in the
drop-result-set trace the live-process count for the session's database,
observed from a different connection, goes from 1 to 0. -/
theorem c7_result_handle_release :
    (∀ (st : ServerProcs) (it : RowIteratorHandle), it.exhausted = false →
       ∀ r ∈ (dropIterator st it).procs, r.handleId ≠ it.handleId)
    ∧ (∀ (st : ServerProcs) (h : Nat),
        releaseHandle (releaseHandle st h) h = releaseHandle st h)
    ∧ processCount demoProcs "drop_result_set_cursor" = 1
    ∧ processCount (dropIterator demoProcs demoIterator) "drop_result_set_cursor" = 0 := by
  refine ⟨?_, ?_, rfl, rfl⟩
  · intro st it _ r hr
    have hmem := List.mem_filter.mp hr
    simpa using hmem.2
  · intro st h
    cases st with
    | mk l =>
      simp only [releaseHandle]
      rw [filter_twice]

theorem c7_result_handle_release_witness :
    demoIterator.exhausted = false
    ∧ (∀ r ∈ (dropIterator demoProcs demoIterator).procs,
        r.handleId ≠ demoIterator.handleId) :=
  ⟨rfl, c7_result_handle_release.1 demoProcs demoIterator rfl⟩

/-- C8: kill_query error semantics — for every syntactically valid query
id (UUID shape) that is not among the live queries, kill_query returns
an error carrying a non-empty human-readable message, never a silent
no-op. -/
theorem c8_kill_query_error :
    ∀ (live : List String) (queryId : String),
      isValidQueryId queryId = true → queryId ∉ live →
        ∃ msg : String,
          kill_query live queryId = Except.error msg ∧ 0 < msg.length := by
  intro live qid _ hnot
  refine ⟨"no query found for id " ++ qid, ?_, ?_⟩
  · simp [kill_query, hnot]
  · rw [string_length_append]
    have h22 : ("no query found for id " : String).length = 22 := rfl
    omega

theorem c8_kill_query_error_witness :
    (isValidQueryId "12345678-1234-1234-1234-123456789012" = true
      ∧ "12345678-1234-1234-1234-123456789012" ∉ ([] : List String))
    ∧ ∃ msg : String,
        kill_query [] "12345678-1234-1234-1234-123456789012" = Except.error msg
          ∧ 0 < msg.length :=
  ⟨⟨rfl, by simp⟩,
   c8_kill_query_error [] "12345678-1234-1234-1234-123456789012" rfl (by simp)⟩

/-- C9: Parameter binding — a positional ordered sequence binds `?`
placeholders in order and is returned unchanged; a named mapping binds
`:name` placeholders (the test mapping, including an explicit null,
comes back unchanged); a positional arity that does not match the number
of `?` placeholders is rejected with a binding-mismatch error; mixing
the two styles in one call (a named placeholder with positional
parameters, or a positional placeholder with a named mapping) is
rejected with a binding-mismatch error; and the supported value kinds
int, bool, float, string and null all pass through unchanged. -/
theorem c9_parameter_binding :
    (∀ (sql : String) (vs : List Param) (n : Nat),
       scanPlaceholders sql.data = List.replicate n Placeholder.positional →
       vs.length = n →
         bindParams sql (ParamSet.positionalPs vs) = Except.ok vs)
    ∧ bindParams "SELECT :a, :b, :c, :d, :e"
        (ParamSet.namedPs
          [("a", Param.int 3), ("b", Param.bool false), ("c", Param.int 4),
           ("d", Param.str "55"), ("e", Param.null)])
        = Except.ok
            [Param.int 3, Param.bool false, Param.int 4, Param.str "55", Param.null]
    ∧ (∀ (sql : String) (vs : List Param) (n : Nat),
        scanPlaceholders sql.data = List.replicate n Placeholder.positional →
        vs.length ≠ n →
          bindParams sql (ParamSet.positionalPs vs)
            = Except.error "binding mismatch: placeholder count differs from supplied arity")
    ∧ (∀ (sql : String) (vs : List Param),
        (scanPlaceholders sql.data).any isNamedPh = true →
          bindParams sql (ParamSet.positionalPs vs)
            = Except.error "binding mismatch: named placeholder bound with positional parameters")
    ∧ (∀ (sql : String) (m : List (String × Param)) (rest : List Placeholder),
        scanPlaceholders sql.data = Placeholder.positional :: rest →
          bindParams sql (ParamSet.namedPs m)
            = Except.error "binding mismatch: positional placeholder bound with named parameters")
    ∧ bindParams "SELECT ?, ?, ?, ?, ?"
        (ParamSet.positionalPs
          [Param.int 3, Param.bool false, Param.float (11 / 2), Param.str "55",
           Param.null])
        = Except.ok
            [Param.int 3, Param.bool false, Param.float (11 / 2), Param.str "55",
             Param.null] := by
  refine ⟨?_, rfl, ?_, ?_, ?_, rfl⟩
  · intro sql vs n hscan hlen
    simp [bindParams, hscan, replicate_positional_any_named, hlen, isNamedPh]
  · intro sql vs n hscan hne
    simp only [bindParams, hscan, replicate_positional_any_named,
      Bool.false_eq_true, if_false, List.length_replicate]
    rw [if_neg]
    intro h
    exact hne h.symm
  · intro sql vs hany
    simp [bindParams, hany]
  · intro sql m rest hscan
    simp [bindParams, hscan, bindNamed]

theorem c9_parameter_binding_witness :
    (scanPlaceholders "SELECT ?, ?, ?, ?".data
        = List.replicate 4 Placeholder.positional
      ∧ ([Param.int 3, Param.bool false, Param.int 4, Param.str "55"] : List Param).length = 4)
    ∧ bindParams "SELECT ?, ?, ?, ?"
        (ParamSet.positionalPs
          [Param.int 3, Param.bool false, Param.int 4, Param.str "55"])
        = Except.ok [Param.int 3, Param.bool false, Param.int 4, Param.str "55"]
    ∧ bindParams "SELECT ?"
        (ParamSet.positionalPs [Param.int 3, Param.bool false])
        = Except.error "binding mismatch: placeholder count differs from supplied arity"
    ∧ bindParams "SELECT :a" (ParamSet.positionalPs [Param.int 1])
        = Except.error "binding mismatch: named placeholder bound with positional parameters"
    ∧ bindParams "SELECT ?" (ParamSet.namedPs [])
        = Except.error "binding mismatch: positional placeholder bound with named parameters" :=
  ⟨⟨rfl, rfl⟩,
   c9_parameter_binding.1 "SELECT ?, ?, ?, ?"
     [Param.int 3, Param.bool false, Param.int 4, Param.str "55"] 4 rfl rfl,
   c9_parameter_binding.2.2.1 "SELECT ?" [Param.int 3, Param.bool false] 1 rfl
     (by decide),
   c9_parameter_binding.2.2.2.1 "SELECT :a" [Param.int 1] rfl,
   c9_parameter_binding.2.2.2.2.1 "SELECT ?" [] [] rfl⟩

/-- C10: ORM mapping-layer consistency — for every model, `field_names`
and `to_values` return sequences of equal length, aligned positionally
(both are the projections of the same declaration-ordered list of
non-skip_serializing fields, with renames applied); `from_row` fills
every skip_deserializing field with its declared default, and fills
every field missing from the row with its declared default — in general
(any field whose consume position is at least the row length, for any
row, any declared default) and in the limit case of an empty row;
checked on the ComplexModel fixture and on the DeserializeModel fixture,
whose missing field `value` has the non-null default "default". -/
theorem c10_orm_mapping :
    (∀ (fs : List FieldSpec) (vals : List TypedValue), vals.length = fs.length →
       (field_names fs).length = (to_values fs vals).length)
    ∧ (∀ (fs : List FieldSpec) (vals : List TypedValue), vals.length = fs.length →
        field_names fs
            = ((fs.zip vals).filter (fun p => p.1.skipSer = false)).map
                (fun p => effectiveName p.1)
          ∧ to_values fs vals
            = ((fs.zip vals).filter (fun p => p.1.skipSer = false)).map
                (fun p => p.2))
    ∧ (∀ (fs : List FieldSpec) (row : List TypedValue) (i : Nat) (h : i < fs.length),
        (fs.get ⟨i, h⟩).skipDeser = true →
          (from_row fs row).get? i = some (fs.get ⟨i, h⟩).dfltVal)
    ∧ (∀ (fs : List FieldSpec) (row : List TypedValue) (i : Nat) (h : i < fs.length),
        (fs.get ⟨i, h⟩).skipDeser = false →
        row.length ≤ consumedBefore fs i →
          (from_row fs row).get? i = some (fs.get ⟨i, h⟩).dfltVal)
    ∧ (∀ fs : List FieldSpec, from_row fs [] = fs.map (fun f => f.dfltVal))
    ∧ field_names complexFields = ["id", "full_name", "email", "updated"]
    ∧ from_row complexFields
        [TypedValue.int 1, TypedValue.str "John Doe", TypedValue.str "john@example.com"]
        = [TypedValue.int 1, TypedValue.str "John Doe",
           TypedValue.str "john@example.com", TypedValue.null, TypedValue.null,
           TypedValue.str "secret"]
    ∧ from_row deserializeFields
        [TypedValue.int 1, TypedValue.str "alice",
         TypedValue.str "alice@example.com", TypedValue.str "2000-01-01"]
        = [TypedValue.int 1, TypedValue.str "alice",
           TypedValue.str "alice@example.com", TypedValue.str "2000-01-01",
           TypedValue.null, TypedValue.str "default", TypedValue.str ""] := by
  refine ⟨?_, field_names_to_values_aligned, from_row_skipDeser_default,
    from_row_missing_default, from_row_nil_defaults, rfl, rfl, rfl⟩
  intro fs vals h
  obtain ⟨hn, hv⟩ := field_names_to_values_aligned fs vals h
  rw [hn, hv]
  simp

theorem c10_orm_mapping_witness :
    (([TypedValue.int 1, TypedValue.str "John Doe",
        TypedValue.str "john@example.com", TypedValue.null, TypedValue.null,
        TypedValue.str "secret"] : List TypedValue).length = complexFields.length)
    ∧ (field_names complexFields).length
        = (to_values complexFields
            [TypedValue.int 1, TypedValue.str "John Doe",
             TypedValue.str "john@example.com", TypedValue.null, TypedValue.null,
             TypedValue.str "secret"]).length
    ∧ (from_row complexFields []).get? 4 = some TypedValue.null
    ∧ (([TypedValue.int 1, TypedValue.str "alice",
         TypedValue.str "alice@example.com",
         TypedValue.str "2000-01-01"] : List TypedValue).length
          ≤ consumedBefore deserializeFields 5)
    ∧ (from_row deserializeFields
        [TypedValue.int 1, TypedValue.str "alice",
         TypedValue.str "alice@example.com", TypedValue.str "2000-01-01"]).get? 5
        = some (TypedValue.str "default") :=
  ⟨rfl,
   c10_orm_mapping.1 complexFields
     [TypedValue.int 1, TypedValue.str "John Doe",
      TypedValue.str "john@example.com", TypedValue.null, TypedValue.null,
      TypedValue.str "secret"] rfl,
   c10_orm_mapping.2.2.1 complexFields [] 4 (by decide) rfl,
   by decide,
   c10_orm_mapping.2.2.2.1 deserializeFields
     [TypedValue.int 1, TypedValue.str "alice",
      TypedValue.str "alice@example.com", TypedValue.str "2000-01-01"]
     5 (by decide) rfl (by decide)⟩

end Bendsql
